import Mathlib

/-!
Verification of the sqlproxy connection-routing logic of
`pkg/ccl/sqlproxyccl/proxy_handler.go`.

The Go code is shallowly embedded: parameter strings are handled as
`List Char` (all the characters involved in the routing logic are ASCII,
for which Go's byte indices and rune indices agree), Go's `map[string]string`
startup-message parameters are association lists, fallible functions return
`Except`, and the two external effects of `outgoingAddress` (the tenant
directory RPC and DNS resolution) are passed in as explicit oracles.
-/

namespace SqlProxy

/-- A single-quote character (used to reproduce the quoted identifiers that
appear in the Go error and hint texts). -/
def sq : String := String.mk ['\x27']

/-- A user-facing error, as built in Go with `errors.New`/`errors.Errorf`
plus a list of hints attached by `errors.WithHint`/`errors.WithHintf`
(in attachment order). -/
structure GoErr where
  message : String
  hints : List String
deriving DecidableEq, Repr

/-- Decidable equality for `Except`, so that concrete runs of the embedded
functions can be checked by `decide`. -/
instance instDecEqExcept {ε α : Type} [DecidableEq ε] [DecidableEq α] :
    DecidableEq (Except ε α)
  | .error a, .error b =>
    if h : a = b then .isTrue (by rw [h])
    else .isFalse (by intro he; cases he; exact h rfl)
  | .error _, .ok _ => .isFalse (by intro h; cases h)
  | .ok _, .error _ => .isFalse (by intro h; cases h)
  | .ok a, .ok b =>
    if h : a = b then .isTrue (by rw [h])
    else .isFalse (by intro he; cases he; exact h rfl)

/-- `pgproto3.StartupMessage`: protocol version plus the parameter map.
The Go `map[string]string` is modelled as an association list; parameter
names are unique in a pgwire startup message. -/
structure StartupMessage where
  protocolVersion : Nat
  parameters : List (String × String)
deriving DecidableEq, Repr

/-- Lookup in the parameter map: `some v` when the key is present. -/
def findParam : List (String × String) → String → Option String
  | [], _ => none
  | (k, v) :: rest, key => if k = key then some v else findParam rest key

/-- Go map indexing `msg.Parameters[key]`: a missing key yields `""`. -/
def paramOrEmpty (msg : StartupMessage) (key : String) : String :=
  (findParam msg.parameters key).getD ""

/-- Go map assignment `params[key] = value`: overwrite or insert. -/
def setParam (key value : String) : List (String × String) → List (String × String)
  | [] => [(key, value)]
  | (k, v) :: rest =>
    if k = key then (key, value) :: rest else (k, v) :: setParam key value rest

/-- Go regexp's `\s` character class, i.e. `[\t\n\f\r ]`. -/
def goRegexSpace (c : Char) : Bool :=
  c = '\t' || c = '\n' || c = '\x0c' || c = '\r' || c = ' '

/-- Go's `unicode.IsSpace` (the Unicode `White_Space` property), used by
`strings.TrimSpace`. -/
def unicodeIsSpace (c : Char) : Bool :=
  let n := c.toNat
  n == 9 || n == 10 || n == 11 || n == 12 || n == 13 || n == 32 ||
  n == 0x85 || n == 0xA0 || n == 0x1680 || (0x2000 ≤ n && n ≤ 0x200A) ||
  n == 0x2028 || n == 0x2029 || n == 0x202F || n == 0x205F || n == 0x3000

/-- `strings.TrimSpace`. -/
def trimSpace (cs : List Char) : List Char :=
  ((cs.dropWhile unicodeIsSpace).reverse.dropWhile unicodeIsSpace).reverse

/-- The character class `[a-z0-9]` of `clusterNameRegex`. -/
def isLowerAlnum (c : Char) : Bool :=
  ('a' ≤ c && c ≤ 'z') || ('0' ≤ c && c ≤ '9')

/-- The character class `[a-z0-9-]` of `clusterNameRegex`. -/
def isClusterNameChar (c : Char) : Bool := isLowerAlnum c || c = '-'

/-- `clusterNameRegex.MatchString`, for the anchored regular expression
`^[a-z0-9][a-z0-9-]{4,18}[a-z0-9]$`: between 6 and 20 characters, the first
and last alphanumeric, every character in between in `[a-z0-9-]`. -/
def clusterNameRegexMatch (cs : List Char) : Bool :=
  decide (6 ≤ cs.length) && decide (cs.length ≤ 20) &&
  (match cs.head?, cs.getLast? with
   | some a, some b => isLowerAlnum a && isLowerAlnum b
   | _, _ => false) &&
  ((cs.drop 1).dropLast.all isClusterNameChar)

/-- One match attempt of `clusterIdentifierLongOptionRE`, i.e.
`(?:-c\s*|--)cluster=([\S]*)`, at the head of `cs`.  Returns
`(full match, capture group, remainder after the match)`.

The two alternatives are distinguished by the second character, so Go's
leftmost-first preference for `-c\s*` never conflicts with `--`.  The greedy
`\s*` needs no backtracking: `cluster=` starts with a non-space character,
so dropping fewer than the maximal run of spaces cannot help.  The greedy
capture `([\S]*)` is the maximal run of non-space characters, and nothing
follows it in the pattern. -/
def matchClusterFlagAt (cs : List Char) : Option (List Char × List Char × List Char) :=
  match cs with
  | '-' :: 'c' :: rest =>
    let ws := rest.takeWhile goRegexSpace
    let afterWs := rest.dropWhile goRegexSpace
    if afterWs.take 8 = "cluster=".data then
      let afterKey := afterWs.drop 8
      let cap := afterKey.takeWhile (fun c => !goRegexSpace c)
      let rest2 := afterKey.dropWhile (fun c => !goRegexSpace c)
      some ('-' :: 'c' :: (ws ++ "cluster=".data ++ cap), cap, rest2)
    else none
  | '-' :: '-' :: rest =>
    if rest.take 8 = "cluster=".data then
      let afterKey := rest.drop 8
      let cap := afterKey.takeWhile (fun c => !goRegexSpace c)
      let rest2 := afterKey.dropWhile (fun c => !goRegexSpace c)
      some ('-' :: '-' :: ("cluster=".data ++ cap), cap, rest2)
    else none
  | _ => none

/-- Scanning loop of `FindAllStringSubmatch`: try each position from left
to right; on a match record `(full, capture)` and continue after the match;
stop after `n` matches.  Every match of this pattern is at least 10
characters long, so empty-match repositioning never arises.  The fuel is
`length + 1` at the top call and strictly dominates the recursion depth. -/
def findClusterFlagMatchesAux : Nat → List Char → Nat → List (List Char × List Char)
  | 0, _, _ => []
  | _ + 1, _, 0 => []
  | _ + 1, [], _ + 1 => []
  | fuel + 1, c :: rest, n + 1 =>
    match matchClusterFlagAt (c :: rest) with
    | some (full, cap, after) => (full, cap) :: findClusterFlagMatchesAux fuel after n
    | none => findClusterFlagMatchesAux fuel rest (n + 1)

/-- `clusterIdentifierLongOptionRE.FindAllStringSubmatch(s, n)`. -/
def findClusterFlagMatches (cs : List Char) (n : Nat) : List (List Char × List Char) :=
  findClusterFlagMatchesAux (cs.length + 1) cs n

/-- `strings.Replace`/`strings.ReplaceAll` scanning loop: replace the
leftmost occurrence of `old` and continue after it.  The functions in this
file only ever call it with a non-empty `old`; Go's empty-pattern insertion
behaviour is therefore not modelled (an empty `old` leaves `s` unchanged
here).  Fuel as in `findClusterFlagMatchesAux`. -/
def replaceAllAux : Nat → List Char → List Char → List Char → List Char
  | 0, s, _, _ => s
  | _ + 1, [], _, _ => []
  | fuel + 1, c :: rest, old, new =>
    if old ≠ [] ∧ old.isPrefixOf (c :: rest) then
      new ++ replaceAllAux fuel ((c :: rest).drop old.length) old new
    else
      c :: replaceAllAux fuel rest old new

/-- `strings.ReplaceAll(s, old, new)` (for non-empty `old`). -/
def replaceAll (s old new : List Char) : List Char :=
  replaceAllAux (s.length + 1) s old new

/-- `strings.Split(s, sep)` for a single-character separator. -/
def splitOnChar (c : Char) : List Char → List (List Char)
  | [] => [[]]
  | a :: as =>
    match splitOnChar c as with
    | [] => [[]]
    | r :: rs => if a = c then [] :: r :: rs else (a :: r) :: rs

/-- Index of the last occurrence of `c`, i.e. `strings.LastIndex` (with
`none` for Go's `-1`).  All separators used here are single ASCII bytes, so
byte and character indices agree. -/
def lastIndexOf (c : Char) : List Char → Option Nat
  | [] => none
  | a :: rest =>
    match lastIndexOf c rest with
    | some i => some (i + 1)
    | none => if a = c then some 0 else none

/-- `clusterTenantSep`: the separator between cluster name and tenant ID. -/
def clusterTenantSep : Char := '-'

/-- `math.MaxUint64 + 1`, the bound enforced by `strconv.ParseUint(s, 10, 64)`. -/
def uint64Bound : Nat := 18446744073709551616

/-- `strconv.ParseUint(s, 10, 64)`: a non-empty string of ASCII decimal
digits whose value fits in 64 bits; anything else is an error (`none`). -/
def parseUint64 (cs : List Char) : Option Nat :=
  if cs = [] then none
  else if cs.all Char.isDigit then
    let v := cs.foldl (fun acc c => acc * 10 + (c.toNat - 48)) 0
    if v < uint64Bound then some v else none
  else none

/-- Modelled from the spec: `roachpb.MinTenantID.ToUint64()` (the `roachpb`
package is not under the provided sources).  Spec §3: tenant ID values 0
and 1 are reserved for the system tenant and the minimum legal value is 2. -/
def minTenantID : Nat := 2

/-- Modelled from the spec: `roachpb.MaxTenantID.ToUint64()` (the `roachpb`
package is not under the provided sources).  The maximum tenant ID, i.e.
`math.MaxUint64`, returned as a placeholder on every error path of
`clusterNameAndTenantFromParams`. -/
def maxTenantID : Nat := 18446744073709551615

/-- The `clusterIdentifierHint` constant. -/
def clusterIdentifierHint : String :=
  "Ensure that your cluster identifier is uniquely specified using any of the\nfollowing methods:\n\n1) Database parameter:\n   Use \"<cluster identifier>.<database name>\" as the database parameter.\n   (e.g. database=\"active-roach-42.defaultdb\")\n\n2) Options parameter:\n   Use \"--cluster=<cluster identifier>\" as the options parameter.\n   (e.g. options=\"--cluster=active-roach-42\")\n\nFor more details, please visit our docs site at:\n\thttps://www.cockroachlabs.com/docs/cockroachcloud/connect-to-a-serverless-cluster\n"

/-- The `clusterNameFormHint` constant. -/
def clusterNameFormHint : String :=
  "Cluster identifiers come in the form of <name>-<tenant ID> (e.g. lazy-roach-3)."

/-- The `missingTenantIDHint` constant. -/
def missingTenantIDHint : String :=
  "Did you forget to include your tenant ID in the cluster identifier?"

/-- `errors.Errorf("invalid cluster identifier '%s'", cid)`. -/
def invalidClusterIdentifierMsg (cid : List Char) : String :=
  "invalid cluster identifier " ++ sq ++ String.mk cid ++ sq

/-- The "missing cluster identifier" error with its hint. -/
def missingClusterIdentifierErr : GoErr :=
  ⟨"missing cluster identifier", [clusterIdentifierHint]⟩

/-- The ambiguity error raised when `database` and `options` carry two
different cluster identifiers. -/
def ambiguousClusterIdentifiersErr (cidDB cidOpt : List Char) : GoErr :=
  ⟨"multiple different cluster identifiers provided",
   ["Is " ++ sq ++ String.mk cidDB ++ sq ++ " or " ++ sq ++ String.mk cidOpt ++ sq ++
      " the identifier for the cluster that you" ++ sq ++ "re connecting to?",
    clusterIdentifierHint]⟩

/-- Error of `parseDatabaseParam`. -/
def invalidDatabaseParamErr : GoErr := ⟨"invalid database param", []⟩

/-- Errors of `parseOptionsParam`. -/
def multipleClusterFlagsErr : GoErr := ⟨"multiple cluster flags provided", []⟩

/-- Error for a cluster flag with an empty value. -/
def invalidClusterFlagErr : GoErr := ⟨"invalid cluster flag", []⟩

/-- `parseDatabaseParam`: extract the cluster identifier (if any) from the
`database` parameter `"<cluster identifier>.<database name>"`. -/
def parseDatabaseParam (databaseParam : List Char) :
    Except GoErr (List Char × List Char) :=
  if databaseParam = [] then .ok ([], [])
  else
    match splitOnChar '.' databaseParam with
    | [] => .ok ([], databaseParam)
    | [_] => .ok ([], databaseParam)
    | [clusterIdentifier, databaseName] =>
      if clusterIdentifier = [] ∨ databaseName = [] then .error invalidDatabaseParamErr
      else .ok (clusterIdentifier, databaseName)
    | _ => .error invalidDatabaseParamErr

/-- `parseOptionsParam`: extract the cluster identifier (if any) from the
`options` parameter, and return the options with the cluster flag stripped
out and the result trimmed.  The regex search is capped at two matches and
two matches are refused.  (Go's defensive `len(matches[0]) != 2` check is
unrepresentable here: a match is always a full-text/capture pair.) -/
def parseOptionsParam (optionsParam : List Char) :
    Except GoErr (List Char × List Char) :=
  match findClusterFlagMatches optionsParam 2 with
  | [] => .ok ([], optionsParam)
  | [(full, cap)] =>
    if cap = [] then .error invalidClusterFlagErr
    else .ok (cap, trimSpace (replaceAll optionsParam full []))
  | _ => .error multipleClusterFlagsErr

/-- Lines 622-660 of `clusterNameAndTenantFromParams`: split the chosen
cluster identifier at its last `-`, validate the cluster name against
`clusterNameRegex`, parse the tenant ID and reject reserved values. -/
def parseClusterIdentifier (cid : List Char) : Except GoErr (List Char × Nat) :=
  match lastIndexOf clusterTenantSep cid with
  | none =>
    .error ⟨invalidClusterIdentifierMsg cid, [missingTenantIDHint, clusterNameFormHint]⟩
  | some sepIdx =>
    if sepIdx = cid.length - 1 then
      .error ⟨invalidClusterIdentifierMsg cid, [missingTenantIDHint, clusterNameFormHint]⟩
    else
      let clusterName := cid.take sepIdx
      let tenantIDStr := cid.drop (sepIdx + 1)
      if clusterNameRegexMatch clusterName then
        match parseUint64 tenantIDStr with
        | none =>
          .error ⟨invalidClusterIdentifierMsg cid,
            ["Is " ++ sq ++ String.mk tenantIDStr ++ sq ++ " a valid tenant ID?",
             clusterNameFormHint]⟩
        | some tenID =>
          if tenID < minTenantID then
            .error ⟨invalidClusterIdentifierMsg cid,
              ["Tenant ID " ++ Nat.repr tenID ++ " is invalid."]⟩
          else
            .ok (clusterName, tenID)
      else
        .error ⟨invalidClusterIdentifierMsg cid,
          ["Is " ++ sq ++ String.mk clusterName ++ sq ++ " a valid cluster name?",
           clusterNameFormHint]⟩

/-- The identifier-selection pipeline of `clusterNameAndTenantFromParams`
(lines 590-660) on the raw `database` and `options` parameter values.
On success it returns the rewritten database name, the rewritten options
value, the cluster name and the tenant ID. -/
def routeParams (databaseParam optionsParam : String) :
    Except GoErr (String × String × String × Nat) :=
  match parseDatabaseParam databaseParam.data with
  | .error e => .error e
  | .ok (cidDB, databaseName) =>
    match parseOptionsParam optionsParam.data with
    | .error e => .error e
    | .ok (cidOpt, newOptionsParam) =>
      if cidDB = [] ∧ cidOpt = [] then .error missingClusterIdentifierErr
      else if cidDB ≠ [] ∧ cidOpt ≠ [] ∧ cidDB ≠ cidOpt then
        .error (ambiguousClusterIdentifiersErr cidDB cidOpt)
      else
        match parseClusterIdentifier (if cidDB = [] then cidOpt else cidDB) with
        | .error e => .error e
        | .ok (clusterName, tenID) =>
          .ok (String.mk databaseName, String.mk newOptionsParam,
               String.mk clusterName, tenID)

/-- The parameter-rebuilding loop (lines 664-675): `database` is rewritten
to the bare database name, `options` is replaced by the stripped value or
dropped when that value is empty, and every other key is copied. -/
def rewriteParams (databaseName newOptionsParam : String) :
    List (String × String) → List (String × String)
  | [] => []
  | (k, v) :: rest =>
    if k = "database" then
      (k, databaseName) :: rewriteParams databaseName newOptionsParam rest
    else if k = "options" then
      (if newOptionsParam = "" then rewriteParams databaseName newOptionsParam rest
       else (k, newOptionsParam) :: rewriteParams databaseName newOptionsParam rest)
    else (k, v) :: rewriteParams databaseName newOptionsParam rest

/-- The quadruple returned by `clusterNameAndTenantFromParams`. -/
structure ParseResult where
  outMsg : StartupMessage
  clusterName : String
  tenantID : Nat
  err : Option GoErr
deriving DecidableEq, Repr

/-- `clusterNameAndTenantFromParams`: extract the cluster name and tenant
ID from the connection parameters and rewrite the `database` and `options`
parameters.  Every error path returns the original message together with
an empty cluster name and `roachpb.MaxTenantID`; the success path builds a
fresh message from the rewritten parameters. -/
def clusterNameAndTenantFromParams (msg : StartupMessage) : ParseResult :=
  match routeParams (paramOrEmpty msg "database") (paramOrEmpty msg "options") with
  | .error e => { outMsg := msg, clusterName := "", tenantID := maxTenantID, err := some e }
  | .ok (databaseName, newOptionsParam, clusterName, tenID) =>
    { outMsg := { protocolVersion := msg.protocolVersion,
                  parameters := rewriteParams databaseName newOptionsParam msg.parameters },
      clusterName := clusterName, tenantID := tenID, err := none }

/-- The routing step of `proxyHandler.handle` (lines 226-234): run
`clusterNameAndTenantFromParams`, and on success attach the client's
remote address to the rewritten message under `crdb:remote_addr`. -/
def handleRouting (msg : StartupMessage) (remoteAddr : String) :
    Option (StartupMessage × String × Nat) :=
  let r := clusterNameAndTenantFromParams msg
  match r.err with
  | some _ => none
  | none =>
    some ({ protocolVersion := r.outMsg.protocolVersion,
            parameters := setParam "crdb:remote_addr" remoteAddr r.outMsg.parameters },
          r.clusterName, r.tenantID)

/-- Outcome of one `Directory.EnsureTenantAddr` call, abstracted as an
oracle: a resolved address, a gRPC `NotFound` error, or any other error. -/
inductive DirLookupResult where
  | found (addr : String)
  | notFound
  | unavailable
deriving DecidableEq, Repr

/-- The two error outcomes of `outgoingAddress`: a non-`NotFound` directory
error returned as-is, or a `NotFound` produced when DNS resolution of the
routing-rule address fails. -/
inductive OutgoingAddressError where
  | directoryError
  | resolveNotFound
deriving DecidableEq, Repr

/-- The routing-rule address: `strings.ReplaceAll(RoutingRule,
"{{clusterName}}", fmt.Sprintf("%s-%d", name, tenID))` (the braces of the
template placeholder are written with escapes). -/
def routingRuleAddress (routingRule clusterName : String) (tenID : Nat) : String :=
  String.mk (replaceAll routingRule.data
    "\x7b\x7bclusterName\x7d\x7d".data
    (clusterName.data ++ clusterTenantSep :: (Nat.repr tenID).data))

/-- `proxyHandler.outgoingAddress` (lines 488-515).  The directory (when
configured) and DNS resolution are passed as oracles: `directory` is
`none` when no `DirectoryAddr` was configured, and `resolveOk addr` tells
whether `net.ResolveTCPAddr("tcp", addr)` succeeds. -/
def outgoingAddress (directory : Option (Nat → String → DirLookupResult))
    (routingRule : String) (resolveOk : String → Bool)
    (clusterName : String) (tenID : Nat) : Except OutgoingAddressError String :=
  let fallback : Except OutgoingAddressError String :=
    let addr := routingRuleAddress routingRule clusterName tenID
    if resolveOk addr then .ok addr else .error .resolveNotFound
  match directory with
  | some ensureTenantAddr =>
    match ensureTenantAddr tenID clusterName with
    | .found addr => .ok addr
    | .unavailable => .error .directoryError
    | .notFound => fallback
  | none => fallback

/-! ### Helper lemmas -/

theorem cnat_of_routeParams_error (msg : StartupMessage) (e : GoErr)
    (h : routeParams (paramOrEmpty msg "database") (paramOrEmpty msg "options") = .error e) :
    clusterNameAndTenantFromParams msg =
      { outMsg := msg, clusterName := "", tenantID := maxTenantID, err := some e } := by
  rw [clusterNameAndTenantFromParams, h]

theorem cnat_of_routeParams_ok (msg : StartupMessage) (dbn no nm : String) (t : Nat)
    (h : routeParams (paramOrEmpty msg "database") (paramOrEmpty msg "options") =
      .ok (dbn, no, nm, t)) :
    clusterNameAndTenantFromParams msg =
      { outMsg := { protocolVersion := msg.protocolVersion,
                    parameters := rewriteParams dbn no msg.parameters },
        clusterName := nm, tenantID := t, err := none } := by
  rw [clusterNameAndTenantFromParams, h]

theorem findParam_rewriteParams_database (d o : String) (ps : List (String × String)) :
    findParam (rewriteParams d o ps) "database" =
      (findParam ps "database").map (fun _ => d) := by
  induction ps with
  | nil => rfl
  | cons kv rest ih =>
    obtain ⟨k, v⟩ := kv
    by_cases hk : k = "database"
    · subst hk
      simp [rewriteParams, findParam]
    · by_cases hk2 : k = "options"
      · subst hk2
        by_cases ho : o = ""
        · subst ho; simp [rewriteParams, findParam, ih]
        · simp [rewriteParams, findParam, ho, ih]
      · simp [rewriteParams, findParam, hk, hk2, ih]

theorem findParam_rewriteParams_options_drop (d : String) (ps : List (String × String)) :
    findParam (rewriteParams d "" ps) "options" = none := by
  induction ps with
  | nil => rfl
  | cons kv rest ih =>
    obtain ⟨k, v⟩ := kv
    by_cases hk : k = "database"
    · subst hk
      simp [rewriteParams, findParam, ih]
    · by_cases hk2 : k = "options"
      · subst hk2
        simp [rewriteParams, findParam, hk, ih]
      · simp [rewriteParams, findParam, hk, hk2, ih]

theorem findParam_rewriteParams_other (d o : String) (ps : List (String × String))
    (k : String) (h1 : k ≠ "database") (h2 : k ≠ "options") :
    findParam (rewriteParams d o ps) k = findParam ps k := by
  induction ps with
  | nil => rfl
  | cons kv rest ih =>
    obtain ⟨k0, v⟩ := kv
    by_cases hk : k0 = "database"
    · subst hk
      have : ¬ ("database" : String) = k := fun h => h1 h.symm
      simp [rewriteParams, findParam, this, ih]
    · by_cases hk2 : k0 = "options"
      · subst hk2
        have hne : ¬ ("options" : String) = k := fun h => h2 h.symm
        by_cases ho : o = ""
        · subst ho; simp [rewriteParams, findParam, hne, ih]
        · simp [rewriteParams, findParam, ho, hne, ih]
      · by_cases hk3 : k0 = k
        · subst hk3
          simp [rewriteParams, findParam, hk, hk2]
        · simp [rewriteParams, findParam, hk, hk2, hk3, ih]

theorem findParam_setParam_self (key value : String) (ps : List (String × String)) :
    findParam (setParam key value ps) key = some value := by
  induction ps with
  | nil => simp [setParam, findParam]
  | cons kv rest ih =>
    obtain ⟨k, v⟩ := kv
    by_cases hk : k = key
    · simp [setParam, findParam, hk]
    · simp [setParam, findParam, hk, ih]

theorem take_length_append (l r : List Char) : (l ++ r).take l.length = l := by
  induction l with
  | nil => simp
  | cons a t ih => simp [ih]

theorem drop_length_append (l r : List Char) : (l ++ r).drop l.length = r := by
  induction l with
  | nil => simp
  | cons a t ih => simp [ih]

theorem splitOnChar_ne_nil (c : Char) (l : List Char) : splitOnChar c l ≠ [] := by
  cases l with
  | nil => simp [splitOnChar]
  | cons a as =>
    simp only [splitOnChar]
    cases h : splitOnChar c as with
    | nil => simp
    | cons r rs =>
      by_cases hc : a = c <;> simp [hc]

theorem splitOnChar_not_mem {c : Char} {l : List Char} (h : c ∉ l) :
    splitOnChar c l = [l] := by
  induction l with
  | nil => rfl
  | cons a t ih =>
    have ha : a ≠ c := fun e => h (e ▸ List.mem_cons_self a t)
    have ht : c ∉ t := fun hm => h (List.mem_cons_of_mem a hm)
    simp [splitOnChar, ih ht, ha]

theorem splitOnChar_append {c : Char} {l r : List Char} (h : c ∉ l) :
    splitOnChar c (l ++ c :: r) = l :: splitOnChar c r := by
  induction l with
  | nil =>
    simp only [List.nil_append, splitOnChar]
    cases hs : splitOnChar c r with
    | nil => exact absurd hs (splitOnChar_ne_nil c r)
    | cons r0 rs => simp
  | cons a t ih =>
    have ha : a ≠ c := fun e => h (e ▸ List.mem_cons_self a t)
    have ht : c ∉ t := fun hm => h (List.mem_cons_of_mem a hm)
    simp only [List.cons_append, splitOnChar, List.append_eq]
    rw [ih ht]
    simp [ha]

theorem lastIndexOf_not_mem {c : Char} {l : List Char} (h : c ∉ l) :
    lastIndexOf c l = none := by
  induction l with
  | nil => rfl
  | cons a t ih =>
    have ha : a ≠ c := fun e => h (e ▸ List.mem_cons_self a t)
    have ht : c ∉ t := fun hm => h (List.mem_cons_of_mem a hm)
    simp [lastIndexOf, ih ht, ha]

theorem lastIndexOf_append_sep {c : Char} (X N : List Char) (h : c ∉ N) :
    lastIndexOf c (X ++ c :: N) = some X.length := by
  induction X with
  | nil => simp [lastIndexOf, lastIndexOf_not_mem h]
  | cons a t ih => simp [lastIndexOf, ih]

theorem parseUint64_all_digits {N : List Char} {t : Nat} (h : parseUint64 N = some t) :
    N ≠ [] ∧ N.all Char.isDigit = true := by
  by_cases h1 : N = []
  · subst h1; simp [parseUint64] at h
  · refine ⟨h1, ?_⟩
    by_cases h2 : N.all Char.isDigit
    · exact h2
    · simp [parseUint64, h1, h2] at h

theorem parseUint64_no_sep {N : List Char} {t : Nat} (h : parseUint64 N = some t) :
    clusterTenantSep ∉ N := by
  intro hm
  have hd := (parseUint64_all_digits h).2
  have := List.all_eq_true.mp hd _ hm
  simp [clusterTenantSep, Char.isDigit] at this

theorem clusterNameRegexMatch_ne_nil {X : List Char}
    (h : clusterNameRegexMatch X = true) : X ≠ [] := by
  intro he
  subst he
  simp [clusterNameRegexMatch] at h

theorem clusterNameRegexMatch_no_dot {X : List Char}
    (h : clusterNameRegexMatch X = true) : '.' ∉ X := by
  intro hm
  have hlen : 6 ≤ X.length := by
    have := (Bool.and_eq_true ..).mp ((Bool.and_eq_true ..).mp
      ((Bool.and_eq_true ..).mp h).1).1
    exact of_decide_eq_true this.1
  obtain ⟨a, t, rfl⟩ : ∃ a t, X = a :: t := by
    cases X with
    | nil => simp at hlen
    | cons a t => exact ⟨a, t, rfl⟩
  induction t using List.reverseRecOn with
  | nil => simp at hlen
  | append_singleton ts b _ =>
    have h1 := (Bool.and_eq_true ..).mp h
    have h2 := (Bool.and_eq_true ..).mp h1.1
    have hmid : ((a :: (ts ++ [b])).drop 1).dropLast.all isClusterNameChar = true := h1.2
    have hends := h2.2
    rw [show (a :: (ts ++ [b])).head? = some a from rfl] at hends
    rw [show (a :: (ts ++ [b])).getLast? = some b by
      rw [List.getLast?_cons, List.getLast?_concat]; rfl] at hends
    have hab := (Bool.and_eq_true ..).mp hends
    have hmid' : ts.all isClusterNameChar = true := by
      simpa [List.dropLast_concat] using hmid
    rcases List.mem_cons.mp hm with h | h
    · rw [← h] at hab
      exact absurd hab.1 (by decide)
    · rcases List.mem_append.mp h with h | h
      · exact absurd (List.all_eq_true.mp hmid' _ h) (by decide)
      · rw [← List.mem_singleton.mp h] at hab
        exact absurd hab.2 (by decide)

theorem parseDatabaseParam_with_cid (cid dbn : List Char)
    (h1 : cid ≠ []) (h2 : '.' ∉ cid) (h3 : dbn ≠ []) (h4 : '.' ∉ dbn) :
    parseDatabaseParam (cid ++ '.' :: dbn) = .ok (cid, dbn) := by
  have hne : cid ++ '.' :: dbn ≠ [] := by simp
  rw [parseDatabaseParam, if_neg hne, splitOnChar_append h2, splitOnChar_not_mem h4]
  simp [h1, h3]

theorem parseClusterIdentifier_split (X N : List Char) (t : Nat)
    (hX : clusterNameRegexMatch X = true) (hN : parseUint64 N = some t) :
    parseClusterIdentifier (X ++ clusterTenantSep :: N) =
      if t < minTenantID then
        .error ⟨invalidClusterIdentifierMsg (X ++ clusterTenantSep :: N),
                ["Tenant ID " ++ Nat.repr t ++ " is invalid."]⟩
      else .ok (X, t) := by
  have hdash : clusterTenantSep ∉ N := parseUint64_no_sep hN
  have hNne : N ≠ [] := (parseUint64_all_digits hN).1
  have hNpos : 0 < N.length := List.length_pos.mpr hNne
  rw [parseClusterIdentifier, lastIndexOf_append_sep X N hdash]
  have hlen : (X ++ clusterTenantSep :: N).length = X.length + N.length + 1 := by
    simp [List.length_append, List.length_cons]; omega
  have hne : ¬ (X.length = (X ++ clusterTenantSep :: N).length - 1) := by
    rw [hlen]; omega
  have htake : (X ++ clusterTenantSep :: N).take X.length = X := take_length_append ..
  have hdrop : (X ++ clusterTenantSep :: N).drop (X.length + 1) = N := by
    have hassoc : X ++ clusterTenantSep :: N = (X ++ [clusterTenantSep]) ++ N := by simp
    have hl : (X ++ [clusterTenantSep]).length = X.length + 1 := by simp
    rw [hassoc, ← hl, drop_length_append]
  simp only [htake, hdrop, hN, hX, if_neg hne]
  simp

theorem routeParams_database_cid (cid dbn : List Char)
    (h1 : cid ≠ []) (h2 : '.' ∉ cid) (h3 : dbn ≠ []) (h4 : '.' ∉ dbn) :
    routeParams (String.mk (cid ++ '.' :: dbn)) "" =
      match parseClusterIdentifier cid with
      | .error e => .error e
      | .ok (nm, t) => .ok (String.mk dbn, "", String.mk nm, t) := by
  rw [routeParams]
  rw [show (String.mk (cid ++ '.' :: dbn)).data = cid ++ '.' :: dbn from rfl]
  rw [parseDatabaseParam_with_cid cid dbn h1 h2 h3 h4]
  rw [show parseOptionsParam ("" : String).data = .ok ([], []) from rfl]
  cases hp : parseClusterIdentifier cid with
  | error e => simp [hp, h1]
  | ok nmt => obtain ⟨nm, t⟩ := nmt; simp [hp, h1]

theorem findClusterFlagMatchesAux_length_le (fuel : Nat) :
    ∀ (cs : List Char) (n : Nat), (findClusterFlagMatchesAux fuel cs n).length ≤ n := by
  induction fuel with
  | zero => intro cs n; simp [findClusterFlagMatchesAux]
  | succ f ih =>
    intro cs n
    cases n with
    | zero => simp [findClusterFlagMatchesAux]
    | succ m =>
      cases cs with
      | nil => simp [findClusterFlagMatchesAux]
      | cons c rest =>
        simp only [findClusterFlagMatchesAux]
        cases h : matchClusterFlagAt (c :: rest) with
        | none => exact ih rest (m + 1)
        | some v =>
          obtain ⟨full, cap, after⟩ := v
          simpa using Nat.succ_le_succ (ih after m)

/-! ### Claims -/

/-- C1: for every startup message with `database="happy-koala-3.defaultdb"`
and no `options` parameter, `clusterNameAndTenantFromParams` returns cluster
name `"happy-koala"`, tenant ID 3, and a message whose `database` parameter
is `"defaultdb"`; and for every startup message with `database="defaultdb"`
and `options="-c cluster=happy-koala-3"`, it returns the same cluster name
and tenant ID and a message in which the `options` key is absent. -/
theorem C1_concrete_scenarios :
    (∀ msg : StartupMessage,
      findParam msg.parameters "database" = some "happy-koala-3.defaultdb" →
      findParam msg.parameters "options" = none →
      (clusterNameAndTenantFromParams msg).clusterName = "happy-koala" ∧
      (clusterNameAndTenantFromParams msg).tenantID = 3 ∧
      (clusterNameAndTenantFromParams msg).err = none ∧
      findParam (clusterNameAndTenantFromParams msg).outMsg.parameters "database" =
        some "defaultdb") ∧
    (∀ msg : StartupMessage,
      findParam msg.parameters "database" = some "defaultdb" →
      findParam msg.parameters "options" = some "-c cluster=happy-koala-3" →
      (clusterNameAndTenantFromParams msg).clusterName = "happy-koala" ∧
      (clusterNameAndTenantFromParams msg).tenantID = 3 ∧
      (clusterNameAndTenantFromParams msg).err = none ∧
      findParam (clusterNameAndTenantFromParams msg).outMsg.parameters "options" = none) := by
  constructor
  · intro msg hdb hopt
    have h1 : paramOrEmpty msg "database" = "happy-koala-3.defaultdb" := by
      simp [paramOrEmpty, hdb]
    have h2 : paramOrEmpty msg "options" = "" := by
      simp [paramOrEmpty, hopt]
    have hr : routeParams (paramOrEmpty msg "database") (paramOrEmpty msg "options") =
        .ok ("defaultdb", "", "happy-koala", 3) := by
      rw [h1, h2]; decide
    rw [cnat_of_routeParams_ok msg _ _ _ _ hr]
    refine ⟨rfl, rfl, rfl, ?_⟩
    rw [findParam_rewriteParams_database, hdb]
    rfl
  · intro msg hdb hopt
    have h1 : paramOrEmpty msg "database" = "defaultdb" := by
      simp [paramOrEmpty, hdb]
    have h2 : paramOrEmpty msg "options" = "-c cluster=happy-koala-3" := by
      simp [paramOrEmpty, hopt]
    have hr : routeParams (paramOrEmpty msg "database") (paramOrEmpty msg "options") =
        .ok ("defaultdb", "", "happy-koala", 3) := by
      rw [h1, h2]; decide
    rw [cnat_of_routeParams_ok msg _ _ _ _ hr]
    exact ⟨rfl, rfl, rfl, findParam_rewriteParams_options_drop _ _⟩

/-- Witness for C1 at the two concrete startup messages. -/
theorem C1_concrete_scenarios_witness :
    ((clusterNameAndTenantFromParams
        ⟨196608, [("database", "happy-koala-3.defaultdb")]⟩).clusterName = "happy-koala" ∧
     (clusterNameAndTenantFromParams
        ⟨196608, [("database", "happy-koala-3.defaultdb")]⟩).tenantID = 3 ∧
     (clusterNameAndTenantFromParams
        ⟨196608, [("database", "happy-koala-3.defaultdb")]⟩).err = none ∧
     findParam (clusterNameAndTenantFromParams
        ⟨196608, [("database", "happy-koala-3.defaultdb")]⟩).outMsg.parameters "database" =
       some "defaultdb") ∧
    ((clusterNameAndTenantFromParams
        ⟨196608, [("database", "defaultdb"),
                  ("options", "-c cluster=happy-koala-3")]⟩).clusterName = "happy-koala" ∧
     (clusterNameAndTenantFromParams
        ⟨196608, [("database", "defaultdb"),
                  ("options", "-c cluster=happy-koala-3")]⟩).tenantID = 3 ∧
     (clusterNameAndTenantFromParams
        ⟨196608, [("database", "defaultdb"),
                  ("options", "-c cluster=happy-koala-3")]⟩).err = none ∧
     findParam (clusterNameAndTenantFromParams
        ⟨196608, [("database", "defaultdb"),
                  ("options", "-c cluster=happy-koala-3")]⟩).outMsg.parameters "options" =
       none) :=
  ⟨C1_concrete_scenarios.1 _ (by decide) (by decide),
   C1_concrete_scenarios.2 _ (by decide) (by decide)⟩

/-- C5: for every options parameter in which the cluster-flag regex finds
two or more matches, `parseOptionsParam` returns the error "multiple
cluster flags provided" (even when all matched identifiers are textually
identical, since no semantic deduplication is performed), and the regex
search is capped at two matches. -/
theorem C5_multiple_cluster_flags (opts : List Char) :
    (findClusterFlagMatches opts 2).length ≤ 2 ∧
    (2 ≤ (findClusterFlagMatches opts 2).length →
      parseOptionsParam opts = .error multipleClusterFlagsErr) := by
  constructor
  · exact findClusterFlagMatchesAux_length_le _ _ _
  · intro h
    rw [parseOptionsParam]
    cases hm : findClusterFlagMatches opts 2 with
    | nil => rw [hm] at h; simp at h
    | cons m1 rest =>
      cases rest with
      | nil => rw [hm] at h; simp at h
      | cons m2 rest2 => rfl

/-- Witness for C5: two textually identical cluster flags are refused. -/
theorem C5_multiple_cluster_flags_witness :
    2 ≤ (findClusterFlagMatches
          "-c cluster=happy-koala-3 --cluster=happy-koala-3".data 2).length ∧
    parseOptionsParam "-c cluster=happy-koala-3 --cluster=happy-koala-3".data =
      .error multipleClusterFlagsErr :=
  ⟨by decide,
   (C5_multiple_cluster_flags "-c cluster=happy-koala-3 --cluster=happy-koala-3".data).2
     (by decide)⟩

/-- C7: for every startup message on which `clusterNameAndTenantFromParams`
succeeds and every parameter key other than `database` and `options`, the
output message maps the key to exactly the same value as the input message
(no other key is changed, added or dropped). -/
theorem C7_rewrite_preserves_other_keys (msg : StartupMessage) (k : String)
    (h1 : k ≠ "database") (h2 : k ≠ "options")
    (hsucc : (clusterNameAndTenantFromParams msg).err = none) :
    findParam (clusterNameAndTenantFromParams msg).outMsg.parameters k =
      findParam msg.parameters k := by
  cases hr : routeParams (paramOrEmpty msg "database") (paramOrEmpty msg "options") with
  | error e =>
    rw [cnat_of_routeParams_error msg e hr] at hsucc
    simp at hsucc
  | ok q =>
    obtain ⟨dbn, no, nm, t⟩ := q
    rw [cnat_of_routeParams_ok msg dbn no nm t hr]
    exact findParam_rewriteParams_other dbn no msg.parameters k h1 h2

/-- Witness for C7 at a concrete message with an extra `user` key. -/
theorem C7_rewrite_preserves_other_keys_witness :
    findParam (clusterNameAndTenantFromParams
        ⟨196608, [("database", "happy-koala-3.defaultdb"),
                  ("user", "alice")]⟩).outMsg.parameters "user" =
      findParam
        (⟨196608, [("database", "happy-koala-3.defaultdb"),
                   ("user", "alice")]⟩ : StartupMessage).parameters "user" :=
  C7_rewrite_preserves_other_keys _ "user" (by decide) (by decide) (by decide)

/-- C10: `clusterNameAndTenantFromParams` never mutates its input (it is a
pure function of the message): on every error it returns the original
startup message unchanged together with the empty cluster name and the
maximum tenant ID as placeholders, and on success it returns a freshly
built message whose parameters are rebuilt entry-by-entry from the input
parameters by `rewriteParams`. -/
theorem C10_error_returns_original (msg : StartupMessage) :
    (∀ e : GoErr, (clusterNameAndTenantFromParams msg).err = some e →
      (clusterNameAndTenantFromParams msg).outMsg = msg ∧
      (clusterNameAndTenantFromParams msg).clusterName = "" ∧
      (clusterNameAndTenantFromParams msg).tenantID = maxTenantID) ∧
    ((clusterNameAndTenantFromParams msg).err = none →
      ∃ dbn no nm t,
        routeParams (paramOrEmpty msg "database") (paramOrEmpty msg "options") =
          .ok (dbn, no, nm, t) ∧
        (clusterNameAndTenantFromParams msg).outMsg =
          { protocolVersion := msg.protocolVersion,
            parameters := rewriteParams dbn no msg.parameters }) := by
  cases hr : routeParams (paramOrEmpty msg "database") (paramOrEmpty msg "options") with
  | error e0 =>
    rw [cnat_of_routeParams_error msg e0 hr]
    constructor
    · intro e _; exact ⟨rfl, rfl, rfl⟩
    · intro h; simp at h
  | ok q =>
    obtain ⟨dbn, no, nm, t⟩ := q
    rw [cnat_of_routeParams_ok msg dbn no nm t hr]
    constructor
    · intro e he; simp at he
    · intro _; exact ⟨dbn, no, nm, t, rfl, rfl⟩

set_option maxRecDepth 8192 in
/-- Witness for C10 at a message carrying no cluster identifier (error
path): the message comes back unchanged with the placeholder outputs. -/
theorem C10_error_returns_original_witness :
    (clusterNameAndTenantFromParams ⟨196608, [("user", "alice")]⟩).outMsg =
      (⟨196608, [("user", "alice")]⟩ : StartupMessage) ∧
    (clusterNameAndTenantFromParams ⟨196608, [("user", "alice")]⟩).clusterName = "" ∧
    (clusterNameAndTenantFromParams ⟨196608, [("user", "alice")]⟩).tenantID = maxTenantID :=
  (C10_error_returns_original ⟨196608, [("user", "alice")]⟩).1
    missingClusterIdentifierErr (by decide)

theorem cid_no_dot {X N : List Char} {n : Nat}
    (hX : clusterNameRegexMatch X = true) (hN : parseUint64 N = some n) :
    '.' ∉ X ++ clusterTenantSep :: N := by
  intro hm
  rcases List.mem_append.mp hm with h | h
  · exact clusterNameRegexMatch_no_dot hX h
  · rcases List.mem_cons.mp h with h | h
    · exact absurd h (by decide)
    · exact absurd (List.all_eq_true.mp (parseUint64_all_digits hN).2 _ h) (by decide)

theorem routeParams_split (X N dbn : List Char) (n : Nat)
    (hX : clusterNameRegexMatch X = true) (hN : parseUint64 N = some n)
    (hd1 : dbn ≠ []) (hd2 : '.' ∉ dbn) :
    routeParams (String.mk ((X ++ clusterTenantSep :: N) ++ '.' :: dbn)) "" =
      if n < minTenantID then
        .error ⟨invalidClusterIdentifierMsg (X ++ clusterTenantSep :: N),
                ["Tenant ID " ++ Nat.repr n ++ " is invalid."]⟩
      else .ok (String.mk dbn, "", String.mk X, n) := by
  have hXne : X ≠ [] := clusterNameRegexMatch_ne_nil hX
  have hcidne : X ++ clusterTenantSep :: N ≠ [] :=
    fun h => hXne (List.append_eq_nil.mp h).1
  rw [routeParams_database_cid _ _ hcidne (cid_no_dot hX hN) hd1 hd2,
      parseClusterIdentifier_split X N n hX hN]
  by_cases hlt : n < minTenantID
  · rw [if_pos hlt, if_pos hlt]
  · rw [if_neg hlt, if_neg hlt]

/-- C3: for every cluster identifier of the form `X-N` where `N`, the
substring after the last dash, parses as a decimal integer at least 2 and
the prefix `X` matches the cluster-name format, `clusterNameAndTenantFromParams`
splits at the last dash: the returned cluster name is everything before the
final dash (`X` may itself contain dashes or digits) and the tenant ID is
`N`. -/
theorem C3_split_at_last_dash (X N dbn : List Char) (n : Nat) (msg : StartupMessage)
    (hX : clusterNameRegexMatch X = true)
    (hN : parseUint64 N = some n) (hn : 2 ≤ n)
    (hd1 : dbn ≠ []) (hd2 : '.' ∉ dbn)
    (hdb : findParam msg.parameters "database" =
      some (String.mk ((X ++ clusterTenantSep :: N) ++ '.' :: dbn)))
    (hopt : findParam msg.parameters "options" = none) :
    (clusterNameAndTenantFromParams msg).clusterName = String.mk X ∧
    (clusterNameAndTenantFromParams msg).tenantID = n ∧
    (clusterNameAndTenantFromParams msg).err = none := by
  have h1 : paramOrEmpty msg "database" =
      String.mk ((X ++ clusterTenantSep :: N) ++ '.' :: dbn) := by
    simp [paramOrEmpty, hdb]
  have h2 : paramOrEmpty msg "options" = "" := by
    simp [paramOrEmpty, hopt]
  have hmin : ¬ n < minTenantID := by
    simp only [minTenantID]; omega
  have hr : routeParams (paramOrEmpty msg "database") (paramOrEmpty msg "options") =
      .ok (String.mk dbn, "", String.mk X, n) := by
    rw [h1, h2, routeParams_split X N dbn n hX hN hd1 hd2, if_neg hmin]
  rw [cnat_of_routeParams_ok msg _ _ _ _ hr]
  exact ⟨rfl, rfl, rfl⟩

/-- Witness for C3 at `X = "active-roach"`, `N = "42"` (a name that itself
contains a dash). -/
theorem C3_split_at_last_dash_witness :
    (clusterNameAndTenantFromParams
        ⟨196608, [("database", "active-roach-42.defaultdb")]⟩).clusterName =
      String.mk "active-roach".data ∧
    (clusterNameAndTenantFromParams
        ⟨196608, [("database", "active-roach-42.defaultdb")]⟩).tenantID = 42 ∧
    (clusterNameAndTenantFromParams
        ⟨196608, [("database", "active-roach-42.defaultdb")]⟩).err = none :=
  C3_split_at_last_dash "active-roach".data "42".data "defaultdb".data 42 _
    (by decide) (by decide) (by decide) (by decide) (by decide) (by decide) (by decide)

/-- C6: every cluster identifier whose numeric suffix parses to a tenant ID
below 2 (the reserved system-tenant values 0 and 1) is rejected by
`clusterNameAndTenantFromParams` with an "invalid cluster identifier" error
whose hint names the offending tenant ID; in particular
`database="happy-koala-0.db"` produces an error whose hint says
"Tenant ID 0 is invalid.". -/
theorem C6_reserved_tenant_ids :
    (∀ (X N dbn : List Char) (t : Nat) (msg : StartupMessage),
      clusterNameRegexMatch X = true →
      parseUint64 N = some t → t < 2 →
      dbn ≠ [] → '.' ∉ dbn →
      findParam msg.parameters "database" =
        some (String.mk ((X ++ clusterTenantSep :: N) ++ '.' :: dbn)) →
      findParam msg.parameters "options" = none →
      (clusterNameAndTenantFromParams msg).err =
        some ⟨invalidClusterIdentifierMsg (X ++ clusterTenantSep :: N),
              ["Tenant ID " ++ Nat.repr t ++ " is invalid."]⟩) ∧
    (clusterNameAndTenantFromParams
        ⟨196608, [("database", "happy-koala-0.db")]⟩).err =
      some ⟨"invalid cluster identifier " ++ sq ++ "happy-koala-0" ++ sq,
            ["Tenant ID 0 is invalid."]⟩ := by
  constructor
  · intro X N dbn t msg hX hN ht hd1 hd2 hdb hopt
    have h1 : paramOrEmpty msg "database" =
        String.mk ((X ++ clusterTenantSep :: N) ++ '.' :: dbn) := by
      simp [paramOrEmpty, hdb]
    have h2 : paramOrEmpty msg "options" = "" := by
      simp [paramOrEmpty, hopt]
    have hmin : t < minTenantID := by
      simp only [minTenantID]; omega
    have hr : routeParams (paramOrEmpty msg "database") (paramOrEmpty msg "options") =
        .error ⟨invalidClusterIdentifierMsg (X ++ clusterTenantSep :: N),
                ["Tenant ID " ++ Nat.repr t ++ " is invalid."]⟩ := by
      rw [h1, h2, routeParams_split X N dbn t hX hN hd1 hd2, if_pos hmin]
    rw [cnat_of_routeParams_error msg _ hr]
  · decide

/-- Witness for C6 at tenant ID 1 (the other reserved value). -/
theorem C6_reserved_tenant_ids_witness :
    (clusterNameAndTenantFromParams
        ⟨196608, [("database", "happy-koala-1.db")]⟩).err =
      some ⟨invalidClusterIdentifierMsg
              ("happy-koala".data ++ clusterTenantSep :: "1".data),
            ["Tenant ID " ++ Nat.repr 1 ++ " is invalid."]⟩ :=
  C6_reserved_tenant_ids.1 "happy-koala".data "1".data "db".data 1 _
    (by decide) (by decide) (by decide) (by decide) (by decide) (by decide) (by decide)

/-- C2 counterexample: with a directory configured whose
`EnsureTenantAddr` answers `NotFound`, `outgoingAddress` does NOT treat the
not-found result as final — it falls back to the `RoutingRule` template
(with `clusterName` substituted) and returns the resolved routing-rule
address, contradicting the claim that the routing rule is used only when no
directory is configured. -/
theorem C2_directory_overrides_counterexample :
    outgoingAddress (some fun _ _ => DirLookupResult.notFound)
      "host-\x7b\x7bclusterName\x7d\x7d:26257" (fun _ => true) "happy-koala" 3 =
      .ok "host-happy-koala-3:26257" := by decide

/-- C2 amended: when a directory is configured, `outgoingAddress` first
consults `Directory.EnsureTenantAddr`: a resolved address is returned as-is
and the routing rule is not consulted; a non-not-found directory error is
returned as-is (the caller retries); but a NOT-FOUND result falls back to
the static `RoutingRule` template with `{{clusterName}}` substitution plus
DNS resolution, exactly as in the no-directory case. -/
theorem C2_directory_resolution_amended (d : Nat → String → DirLookupResult)
    (rule : String) (res : String → Bool) (name : String) (t : Nat) :
    (∀ a, d t name = .found a → outgoingAddress (some d) rule res name t = .ok a) ∧
    (d t name = .unavailable →
      outgoingAddress (some d) rule res name t = .error .directoryError) ∧
    (d t name = .notFound →
      outgoingAddress (some d) rule res name t =
        (if res (routingRuleAddress rule name t) then .ok (routingRuleAddress rule name t)
         else .error .resolveNotFound)) ∧
    (outgoingAddress none rule res name t =
      (if res (routingRuleAddress rule name t) then .ok (routingRuleAddress rule name t)
       else .error .resolveNotFound)) := by
  refine ⟨?_, ?_, ?_, ?_⟩
  · intro a h; simp [outgoingAddress, h]
  · intro h; simp [outgoingAddress, h]
  · intro h; simp [outgoingAddress, h]
  · simp [outgoingAddress]

/-- Witness for the amended C2: a not-found directory answer combined with
failing DNS resolution of the routing-rule address yields the not-found
error. -/
theorem C2_directory_resolution_amended_witness :
    outgoingAddress (some fun _ _ => DirLookupResult.notFound)
      "host-\x7b\x7bclusterName\x7d\x7d:26257" (fun _ => false) "happy-koala" 7 =
      .error .resolveNotFound := by
  have h := (C2_directory_resolution_amended (fun _ _ => DirLookupResult.notFound)
    "host-\x7b\x7bclusterName\x7d\x7d:26257" (fun _ => false) "happy-koala" 7).2.2.1 rfl
  simpa using h

/-- C4 counterexample: `database="a.db"` and `options="--cluster=a"` carry
the same cluster identifier `"a"` from both sources, yet
`clusterNameAndTenantFromParams` fails (the shared identifier has no
tenant-ID suffix), contradicting "if both carry the same identifier it
succeeds" and the "exactly" in the claim. -/
theorem C4_placement_errors_counterexample :
    parseDatabaseParam
        (paramOrEmpty ⟨196608, [("database", "a.db"), ("options", "--cluster=a")]⟩
          "database").data = .ok ("a".data, "db".data) ∧
    parseOptionsParam
        (paramOrEmpty ⟨196608, [("database", "a.db"), ("options", "--cluster=a")]⟩
          "options").data = .ok ("a".data, "".data) ∧
    (clusterNameAndTenantFromParams
        ⟨196608, [("database", "a.db"), ("options", "--cluster=a")]⟩).err ≠ none := by
  refine ⟨by decide, by decide, by decide⟩

/-- C4 amended: the placement checks of `clusterNameAndTenantFromParams`
behave as claimed — no identifier from either source fails with the hint
listing both placement options, and two different identifiers fail with
"multiple different cluster identifiers provided" — but when both sources
carry the same identifier the function succeeds only if that shared
identifier is itself valid (errors can still arise from identifier
validation, so placement is not the only error source). -/
theorem C4_placement_errors_amended :
    (∀ (msg : StartupMessage) (dbn no : List Char),
      parseDatabaseParam (paramOrEmpty msg "database").data = .ok ([], dbn) →
      parseOptionsParam (paramOrEmpty msg "options").data = .ok ([], no) →
      (clusterNameAndTenantFromParams msg).err = some missingClusterIdentifierErr) ∧
    (∀ (msg : StartupMessage) (cidDB dbn cidOpt no : List Char),
      parseDatabaseParam (paramOrEmpty msg "database").data = .ok (cidDB, dbn) →
      parseOptionsParam (paramOrEmpty msg "options").data = .ok (cidOpt, no) →
      cidDB ≠ [] → cidOpt ≠ [] → cidDB ≠ cidOpt →
      (clusterNameAndTenantFromParams msg).err =
        some (ambiguousClusterIdentifiersErr cidDB cidOpt)) ∧
    (∀ (msg : StartupMessage) (cid dbn no nm : List Char) (t : Nat),
      parseDatabaseParam (paramOrEmpty msg "database").data = .ok (cid, dbn) →
      parseOptionsParam (paramOrEmpty msg "options").data = .ok (cid, no) →
      cid ≠ [] →
      parseClusterIdentifier cid = .ok (nm, t) →
      (clusterNameAndTenantFromParams msg).err = none ∧
      (clusterNameAndTenantFromParams msg).clusterName = String.mk nm ∧
      (clusterNameAndTenantFromParams msg).tenantID = t) := by
  refine ⟨?_, ?_, ?_⟩
  · intro msg dbn no hd ho
    have hr : routeParams (paramOrEmpty msg "database") (paramOrEmpty msg "options") =
        .error missingClusterIdentifierErr := by
      simp [routeParams, hd, ho]
    rw [cnat_of_routeParams_error msg _ hr]
  · intro msg cidDB dbn cidOpt no hd ho h1 h2 h3
    have hr : routeParams (paramOrEmpty msg "database") (paramOrEmpty msg "options") =
        .error (ambiguousClusterIdentifiersErr cidDB cidOpt) := by
      simp [routeParams, hd, ho, h1, h2, h3]
    rw [cnat_of_routeParams_error msg _ hr]
  · intro msg cid dbn no nm t hd ho hne hvalid
    have hr : routeParams (paramOrEmpty msg "database") (paramOrEmpty msg "options") =
        .ok (String.mk dbn, String.mk no, String.mk nm, t) := by
      simp [routeParams, hd, ho, hne, hvalid]
    rw [cnat_of_routeParams_ok msg _ _ _ _ hr]
    exact ⟨rfl, rfl, rfl⟩

/-- Witness for the amended C4: all three branches at concrete messages
(no identifier; `a.db` versus `--cluster=b-5`; the same valid identifier in
both sources). -/
theorem C4_placement_errors_amended_witness :
    (clusterNameAndTenantFromParams ⟨196608, [("user", "bob")]⟩).err =
      some missingClusterIdentifierErr ∧
    (clusterNameAndTenantFromParams
        ⟨196608, [("database", "a.db"), ("options", "--cluster=b-5")]⟩).err =
      some (ambiguousClusterIdentifiersErr "a".data "b-5".data) ∧
    (clusterNameAndTenantFromParams
        ⟨196608, [("database", "happy-koala-3.db"),
                  ("options", "--cluster=happy-koala-3")]⟩).err = none :=
  ⟨C4_placement_errors_amended.1 ⟨196608, [("user", "bob")]⟩ [] []
      (by decide) (by decide),
   C4_placement_errors_amended.2.1 _ "a".data "db".data "b-5".data "".data
      (by decide) (by decide) (by decide) (by decide) (by decide),
   (C4_placement_errors_amended.2.2 _ "happy-koala-3".data "db".data "".data
      "happy-koala".data 3 (by decide) (by decide) (by decide) (by decide)).1⟩

/-- C8 counterexample: `clusterNameAndTenantFromParams` itself does not
attach `crdb:remote_addr` — on this successfully parsed message the key is
absent from the message it returns. -/
theorem C8_remote_addr_counterexample :
    (clusterNameAndTenantFromParams
        ⟨196608, [("database", "happy-koala-3.defaultdb")]⟩).err = none ∧
    findParam (clusterNameAndTenantFromParams
        ⟨196608, [("database", "happy-koala-3.defaultdb")]⟩).outMsg.parameters
      "crdb:remote_addr" = none := by
  refine ⟨by decide, by decide⟩

/-- C8 amended: the `crdb:remote_addr` attachment is performed by the
caller, `proxyHandler.handle`, immediately after a successful parse
(`backendStartupMsg.Parameters["crdb:remote_addr"] = conn.RemoteAddr().String()`),
so every startup message that the routing step of `handle` forwards
contains that key set to the client's host:port string;
`clusterNameAndTenantFromParams` itself does not add the key. -/
theorem C8_remote_addr_amended (msg : StartupMessage) (remoteAddr : String)
    (m : StartupMessage) (nm : String) (t : Nat)
    (h : handleRouting msg remoteAddr = some (m, nm, t)) :
    findParam m.parameters "crdb:remote_addr" = some remoteAddr := by
  simp only [handleRouting] at h
  cases he : (clusterNameAndTenantFromParams msg).err with
  | some e => rw [he] at h; exact absurd h (by simp)
  | none =>
    rw [he] at h
    have hm : ({ protocolVersion := (clusterNameAndTenantFromParams msg).outMsg.protocolVersion,
                 parameters := setParam "crdb:remote_addr" remoteAddr
                   (clusterNameAndTenantFromParams msg).outMsg.parameters } :
        StartupMessage) = m :=
      congrArg Prod.fst (Option.some.inj h)
    rw [← hm]
    exact findParam_setParam_self ..

/-- Witness for the amended C8 at a concrete message and address. -/
theorem C8_remote_addr_amended_witness :
    findParam [("database", "defaultdb"),
               ("crdb:remote_addr", "10.0.0.1:5432")] "crdb:remote_addr" =
      some "10.0.0.1:5432" :=
  C8_remote_addr_amended ⟨196608, [("database", "happy-koala-3.defaultdb")]⟩
    "10.0.0.1:5432"
    ⟨196608, [("database", "defaultdb"), ("crdb:remote_addr", "10.0.0.1:5432")]⟩
    "happy-koala" 3 (by decide)

/-- C9 counterexample: parsing is not idempotent.  On the valid input
`database="happy-koala-3.defaultdb"` the first application succeeds with
cluster name `"happy-koala"`, but re-applying the function to the rewritten
message it returned fails (the identifier was consumed by the rewrite) and
yields a different cluster name. -/
theorem C9_idempotence_counterexample :
    (clusterNameAndTenantFromParams
        ⟨196608, [("database", "happy-koala-3.defaultdb")]⟩).err = none ∧
    (clusterNameAndTenantFromParams
        ⟨196608, [("database", "happy-koala-3.defaultdb")]⟩).clusterName =
      "happy-koala" ∧
    (clusterNameAndTenantFromParams
        (clusterNameAndTenantFromParams
          ⟨196608, [("database", "happy-koala-3.defaultdb")]⟩).outMsg).err ≠ none ∧
    (clusterNameAndTenantFromParams
        (clusterNameAndTenantFromParams
          ⟨196608, [("database", "happy-koala-3.defaultdb")]⟩).outMsg).clusterName ≠
      "happy-koala" := by
  refine ⟨by decide, by decide, ?_, ?_⟩
  · intro h
    exact absurd h (by decide)
  · intro h
    exact absurd h (by decide)

set_option maxRecDepth 8192 in
/-- C9 amended: identifier parsing is deterministic (a pure function of the
startup message), but it is NOT idempotent under re-application: the rewrite
consumes the identifier, so re-applying the function to the rewritten
message of the common scenario fails with "missing cluster identifier"
(returning that message unchanged with the placeholder outputs), and an
options string in which the stripped flag uncovers a second cluster flag
can even make the re-application succeed with different identifiers. -/
theorem C9_deterministic_not_idempotent :
    (∀ msg1 msg2 : StartupMessage, msg1 = msg2 →
      clusterNameAndTenantFromParams msg1 = clusterNameAndTenantFromParams msg2) ∧
    ((clusterNameAndTenantFromParams
        (clusterNameAndTenantFromParams
          ⟨196608, [("database", "happy-koala-3.defaultdb")]⟩).outMsg).err =
      some missingClusterIdentifierErr ∧
     (clusterNameAndTenantFromParams
        (clusterNameAndTenantFromParams
          ⟨196608, [("database", "happy-koala-3.defaultdb")]⟩).outMsg).outMsg =
      (clusterNameAndTenantFromParams
          ⟨196608, [("database", "happy-koala-3.defaultdb")]⟩).outMsg) ∧
    ((clusterNameAndTenantFromParams
        ⟨196608, [("options",
          "-c--cluster=happy-koala-3 cluster=other-roach-7")]⟩).clusterName =
      "happy-koala" ∧
     (clusterNameAndTenantFromParams
        ⟨196608, [("options",
          "-c--cluster=happy-koala-3 cluster=other-roach-7")]⟩).tenantID = 3 ∧
     (clusterNameAndTenantFromParams
        (clusterNameAndTenantFromParams
          ⟨196608, [("options",
            "-c--cluster=happy-koala-3 cluster=other-roach-7")]⟩).outMsg).clusterName =
      "other-roach" ∧
     (clusterNameAndTenantFromParams
        (clusterNameAndTenantFromParams
          ⟨196608, [("options",
            "-c--cluster=happy-koala-3 cluster=other-roach-7")]⟩).outMsg).tenantID =
      7) := by
  refine ⟨fun msg1 msg2 h => by rw [h], ⟨?_, ?_⟩, ?_, ?_, ?_, ?_⟩ <;> decide

/-- Witness for the amended C9 (its determinism conjunct has an equality
hypothesis): instantiated at a concrete message. -/
theorem C9_deterministic_not_idempotent_witness :
    clusterNameAndTenantFromParams ⟨196608, [("database", "happy-koala-3.defaultdb")]⟩ =
      clusterNameAndTenantFromParams ⟨196608, [("database", "happy-koala-3.defaultdb")]⟩ :=
  C9_deterministic_not_idempotent.1
    ⟨196608, [("database", "happy-koala-3.defaultdb")]⟩
    ⟨196608, [("database", "happy-koala-3.defaultdb")]⟩ rfl

end SqlProxy
